import Mathlib

/-!
Shallow embedding of `dual_agent_granite.py` (granite-duo-v1): a two-role
iterative refinement loop (generator / critic) driven by
`DualAgentCoordinator.run`, with an Ollama-style backend client.

The backend is modelled as an oracle `Client : Nat → Req → String` mapping the
index of the HTTP call (number of earlier calls made through the shared
`OllamaClient` instance) and the request body to the returned text, which
captures arbitrary (possibly nondeterministic) server behaviour.  The HTTP
transport of `OllamaClient.generate` itself is modelled separately by
`HttpOutcome`.  Python exceptions are modelled by `Except String`.
-/

namespace GraniteDuo

/-! ### Generic string helpers (Python `in` on `str`, `str.lower`) -/

/-- Whether `pat` is a leading segment of `l` (character lists). -/
def leadsList : List Char → List Char → Bool
  | [], _ => true
  | _ :: _, [] => false
  | a :: as, b :: bs => a == b && leadsList as bs

/-- Whether `pat` occurs contiguously somewhere inside `l`
(Python `pat in s` on strings, over the character lists). -/
def containsSubL (pat : List Char) : List Char → Bool
  | [] => leadsList pat []
  | c :: ts => leadsList pat (c :: ts) || containsSubL pat ts

/-- Python `pat in s` substring test. -/
def strContainsSub (s pat : String) : Bool :=
  containsSubL pat.data s.data

/-- Python `str.lower()` (ASCII-level, which is all the fixed marker needs). -/
def strLower (s : String) : String :=
  ⟨s.data.map Char.toLower⟩

/-- Drop leading whitespace characters. -/
def dropLeadingWs : List Char → List Char
  | [] => []
  | c :: cs => if c.isWhitespace then dropLeadingWs cs else c :: cs

/-- Python `str.strip()`: remove leading and trailing whitespace. -/
def pyStrip (s : String) : String :=
  ⟨(dropLeadingWs (dropLeadingWs s.data).reverse).reverse⟩

/-! ### Configuration and data model (`dual_agent_granite.py` lines 71-96) -/

/-- Agent role definitions (`class AgentRole(Enum)`). -/
inductive AgentRole where
  | GENERATOR
  | CRITIC
deriving DecidableEq

/-- Configuration for an agent (`@dataclass AgentConfig`).  The `temperature`
and `max_tokens` fields are carried by the Python dataclass but never inspected
by any control flow, so they are omitted from the embedding. -/
structure AgentConfig where
  name : String
  role : AgentRole
  system_prompt : String
  model : String := "granite3-moe:1b"
deriving DecidableEq

/-- One record of `ConversationState.history` (the dict literal appended at
lines 354-358): `critic_feedback` is `None` exactly when the dict stores
`None`. -/
structure HistRecord where
  iteration : Nat
  generator_output : String
  critic_feedback : Option String
deriving DecidableEq

/-- State management for agent conversations (`@dataclass ConversationState`). -/
structure ConversationState where
  user_query : String
  generator_output : String := ""
  critic_feedback : String := ""
  iteration : Nat := 0
  max_iterations : Nat := 3
  history : List HistRecord := []
  converged : Bool := false
deriving DecidableEq

/-! ### System prompts (lines 101-127) -/

def GENERATOR_SYSTEM_PROMPT : String :=
  "You are a Generator Agent specializing in creating comprehensive, accurate responses.\n\nYour responsibilities:\n- Analyze user queries carefully and provide detailed, well-structured responses\n- Draw upon your knowledge to give informative answers\n- Be clear, concise, and accurate\n- Structure your responses with proper formatting when appropriate\n- If you receive feedback, incorporate it to improve your response\n\nFocus on quality and completeness. Your response will be reviewed by a Critic Agent."

def CRITIC_SYSTEM_PROMPT : String :=
  "You are a Critic Agent specializing in evaluating and improving responses.\n\nYour responsibilities:\n- Review the Generator's response critically but constructively\n- Identify gaps, inaccuracies, or areas for improvement\n- Provide specific, actionable feedback\n- Suggest concrete improvements\n- Acknowledge what was done well\n- Focus on substance over style\n\nFormat your feedback as:\nSTRENGTHS: [What was done well]\nIMPROVEMENTS NEEDED: [Specific issues to address]\nSUGGESTIONS: [Concrete recommendations]\n\nBe thorough but fair. Your goal is to help improve the response, not to criticize unnecessarily."

/-! ### Ollama client (lines 133-193) -/

/-- The request body assembled by `OllamaClient.generate` (line 169): the
fields that reach the backend and that stubs can distinguish.  The
`temperature` option and the constant `stream = false` flag are carried in the
payload but never inspected by the orchestration logic, so they are omitted. -/
structure Req where
  prompt : String
  system : String
  model : String
deriving DecidableEq

/-- The backend as an oracle: the text returned for the `n`-th call made
through the shared client, given the request body. -/
abbrev Client := Nat → Req → String

/-- Outcome of the single HTTP POST inside `OllamaClient.generate`
(lines 179-193): either a response with a status code and an optional
`response` JSON field, or a raised transport exception rendered by `str(e)`. -/
inductive HttpOutcome where
  | success (status : Nat) (responseField : Option String)
  | failure (msg : String)
deriving DecidableEq

/-- The value returned by `OllamaClient.generate` (lines 186-193) as a
function of the observed HTTP outcome: on status 200 the trimmed `response`
field (missing field defaults to `''`), otherwise an error string. -/
def OllamaClient.generate : HttpOutcome → String
  | .success status responseField =>
      if status = 200 then pyStrip (responseField.getD "")
      else "Error: HTTP " ++ toString status
  | .failure msg => "Error: " ++ msg

/-! ### Agent (lines 199-240) -/

/-- The optional `context` dict passed to `Agent.process`.  Each field is
`none` when the key is absent from the dict (so `context.get('feedback')`
yields Python `None` and `context['query']` raises `KeyError`). -/
structure Ctx where
  query : Option String := none
  previous_response : Option String := none
  feedback : Option String := none
deriving DecidableEq

/-- Base Agent class (`class Agent`): configuration plus the mutable
`call_count` counter. -/
structure Agent where
  config : AgentConfig
  call_count : Nat := 0
deriving DecidableEq

/-- Prompt of the generator's first call (line 224):
`f"User Query: {input_text}\n\nProvide a comprehensive response:"`. -/
def firstCallPrompt (input_text : String) : String :=
  "User Query: " ++ input_text ++ "\n\nProvide a comprehensive response:"

/-- Prompt of a generator refinement call (lines 214-222). -/
def improvedPrompt (query previous_response feedback : String) : String :=
  "Original Query: " ++ query ++ "\n\nPrevious Response:\n" ++ previous_response
    ++ "\n\nFeedback from Critic:\n" ++ feedback
    ++ "\n\nPlease provide an improved response that addresses the feedback while maintaining quality."

/-- Prompt of a critic call (lines 226-231). -/
def criticPrompt (query input_text : String) : String :=
  "Original Query: " ++ query ++ "\n\nResponse to Evaluate:\n" ++ input_text
    ++ "\n\nProvide constructive feedback following the specified format."

/-- Prompt construction of `Agent.process` (lines 212-231).  For the generator,
`if context and context.get('feedback')` takes the refinement branch exactly
when a context dict is passed whose `feedback` entry is a non-empty (truthy)
string; the f-string then reads `context['query']` and
`context['previous_response']`, raising `KeyError` on a missing key.  For the
critic, the f-string reads `context['query']` unconditionally: `TypeError` on
`context = None`, `KeyError` on a missing key. -/
def Agent.buildPrompt (role : AgentRole) (input_text : String) (context : Option Ctx) :
    Except String String :=
  match role with
  | .GENERATOR =>
      match context with
      | some c =>
          match c.feedback with
          | some fb =>
              if fb ≠ "" then
                match c.query, c.previous_response with
                | some q, some prev => .ok (improvedPrompt q prev fb)
                | none, _ => .error "KeyError: query"
                | some _, none => .error "KeyError: previous_response"
              else .ok (firstCallPrompt input_text)
          | none => .ok (firstCallPrompt input_text)
      | none => .ok (firstCallPrompt input_text)
  | .CRITIC =>
      match context with
      | none => .error "TypeError: NoneType object is not subscriptable"
      | some c =>
          match c.query with
          | some q => .ok (criticPrompt q input_text)
          | none => .error "KeyError: query"

/-- `Agent.process` (lines 207-240): increments `call_count`, builds the
role-specific prompt, and delegates to the shared client.  `ncalls` is the
number of calls made so far through the shared client (the oracle index). -/
def Agent.process (a : Agent) (client : Client) (ncalls : Nat) (input_text : String)
    (context : Option Ctx) : Except String (String × Agent × Nat) :=
  let a' : Agent := { a with call_count := a.call_count + 1 }
  match Agent.buildPrompt a.config.role input_text context with
  | .error e => .error e
  | .ok prompt =>
      .ok (client ncalls { prompt := prompt, system := a.config.system_prompt,
                           model := a.config.model }, a', ncalls + 1)

/-! ### Dual-agent coordinator (lines 246-367) -/

/-- The generator agent's configuration as built in
`DualAgentCoordinator.__init__` (lines 253-260). -/
def generatorConfig : AgentConfig :=
  { name := "Generator", role := .GENERATOR, system_prompt := GENERATOR_SYSTEM_PROMPT }

/-- The critic agent's configuration as built in
`DualAgentCoordinator.__init__` (lines 262-269). -/
def criticConfig : AgentConfig :=
  { name := "Critic", role := .CRITIC, system_prompt := CRITIC_SYSTEM_PROMPT }

/-- Coordinates interaction between Generator and Critic agents
(`class DualAgentCoordinator`). -/
structure DualAgentCoordinator where
  generator : Agent
  critic : Agent
deriving DecidableEq

/-- A freshly constructed coordinator (`DualAgentCoordinator(client)`): both
call counters start at 0. -/
def mkCoordinator : DualAgentCoordinator :=
  { generator := { config := generatorConfig }, critic := { config := criticConfig } }

/-- The dict returned by `DualAgentCoordinator.run` (lines 360-367). -/
structure RunResult where
  final_response : String
  iterations : Nat
  converged : Bool
  history : List HistRecord
  generator_calls : Nat
  critic_calls : Nat
deriving DecidableEq

/-- The convergence check of line 347:
`"no significant improvements needed" in state.critic_feedback.lower()`. -/
def isConvergedFeedback (feedback : String) : Bool :=
  strContainsSub (strLower feedback) "no significant improvements needed"

/-- The mutable state threaded through the `for` loop of `run`: the
conversation state, both agent objects, and the number of calls made so far
through the shared client. -/
structure LoopState where
  st : ConversationState
  generator : Agent
  critic : Agent
  ncalls : Nat
deriving DecidableEq

/-- One body of the `for iteration in range(max_iterations)` loop
(lines 294-358) at 0-based index `i`.  Returns the updated state and whether
the `break` of line 351 fired.  Note that the `break` fires *before* the
`state.history.append` of line 354, so a converged iteration stores no
history record. -/
def runStep (client : Client) (N i : Nat) (ls : LoopState) :
    Except String (LoopState × Bool) :=
  let st0 := { ls.st with iteration := i + 1 }
  let genCtx : Option Ctx :=
    if i = 0 then none
    else some { query := some st0.user_query,
                previous_response := some st0.generator_output,
                feedback := some st0.critic_feedback }
  match ls.generator.process client ls.ncalls st0.user_query genCtx with
  | .error e => .error e
  | .ok (out, gen', n') =>
      let st1 := { st0 with generator_output := out }
      if i < N - 1 then
        match ls.critic.process client n' st1.generator_output
            (some { query := some st1.user_query }) with
        | .error e => .error e
        | .ok (fb, cri', n'') =>
            let st2 := { st1 with critic_feedback := fb }
            if isConvergedFeedback fb then
              .ok (⟨{ st2 with converged := true }, gen', cri', n''⟩, true)
            else
              .ok (⟨{ st2 with history := st2.history ++
                        [⟨st2.iteration, st2.generator_output, some st2.critic_feedback⟩] },
                    gen', cri', n''⟩, false)
      else
        .ok (⟨{ st1 with history := st1.history ++
                  [⟨st1.iteration, st1.generator_output, none⟩] },
              gen', ls.critic, n'⟩, false)

/-- The iteration loop, structurally recursive on the number of remaining
indices (`fuel` = `N - i` at entry): executes indices `i, i+1, ...` until the
fuel runs out (the `range` is exhausted) or a step reports `break`. -/
def runLoopAux (client : Client) (N : Nat) : Nat → Nat → LoopState → Except String LoopState
  | _, 0, ls => .ok ls
  | i, fuel + 1, ls =>
      match runStep client N i ls with
      | .error e => .error e
      | .ok (ls', stop) =>
          if stop then .ok ls' else runLoopAux client N (i + 1) fuel ls'

/-- `DualAgentCoordinator.run` (lines 271-367): runs the loop on a fresh
`ConversationState` and returns the result dict together with the mutated
coordinator (the agents' lifetime counters) and the new client call index.
`n0` is the number of calls already made through the shared client. -/
def DualAgentCoordinator.run (co : DualAgentCoordinator) (client : Client) (n0 : Nat)
    (user_query : String) (max_iterations : Nat) :
    Except String (RunResult × DualAgentCoordinator × Nat) :=
  let state : ConversationState := { user_query := user_query, max_iterations := max_iterations }
  match runLoopAux client max_iterations 0 max_iterations ⟨state, co.generator, co.critic, n0⟩ with
  | .error e => .error e
  | .ok ls =>
      .ok ({ final_response := ls.st.generator_output,
             iterations := ls.st.iteration,
             converged := ls.st.converged,
             history := ls.st.history,
             generator_calls := ls.generator.call_count,
             critic_calls := ls.critic.call_count },
           { generator := ls.generator, critic := ls.critic }, ls.ncalls)

/-! ### Derived call trace

Because the loop alternates one generator call and (except on the last index)
one critic call, the request reaching the shared client on call `n0 + 2*i` is
the generator request of loop index `i`, and on call `n0 + 2*i + 1` the critic
request of loop index `i`, for as long as the loop keeps going.  The functions
below compute those requests and responses directly from the oracle; the loop
lemmas further down prove that `run` makes exactly these calls. -/

/-- The request a generator `process` call sends for a given prompt. -/
def genReq (prompt : String) : Req :=
  { prompt := prompt, system := GENERATOR_SYSTEM_PROMPT, model := "granite3-moe:1b" }

/-- The request a critic `process` call sends for a given query and candidate
answer. -/
def critReq (query output : String) : Req :=
  { prompt := criticPrompt query output, system := CRITIC_SYSTEM_PROMPT, model := "granite3-moe:1b" }

/-- The prompt the generator sends on loop index `i` (0-based): the plain
first-call prompt at index 0; afterwards, the refinement prompt built from the
previous answer and feedback — unless the carried feedback is the empty
(falsy) string, in which case `Agent.process` falls back to the plain
first-call prompt. -/
def genPrompt (client : Client) (n0 : Nat) (q : String) : Nat → String
  | 0 => firstCallPrompt q
  | i + 1 =>
      let out := client (n0 + 2 * i) (genReq (genPrompt client n0 q i))
      let fb := client (n0 + 2 * i + 1) (critReq q out)
      if fb = "" then firstCallPrompt q else improvedPrompt q out fb

/-- The generator output of loop index `i`. -/
def genOut (client : Client) (n0 : Nat) (q : String) (i : Nat) : String :=
  client (n0 + 2 * i) (genReq (genPrompt client n0 q i))

/-- The critic feedback of loop index `i` (meaningful whenever the critic
phase runs at index `i`, i.e. `i < max_iterations - 1`). -/
def critFb (client : Client) (n0 : Nat) (q : String) (i : Nat) : String :=
  client (n0 + 2 * i + 1) (critReq q (genOut client n0 q i))

/-- Whether the convergence marker fires on the feedback of loop index `i`. -/
def matchesAt (client : Client) (n0 : Nat) (q : String) (i : Nat) : Bool :=
  isConvergedFeedback (critFb client n0 q i)

/-- The history record appended by a non-final, non-converged loop index `i`
(iteration number `i + 1`, feedback present). -/
def okRecord (client : Client) (n0 : Nat) (q : String) (i : Nat) : HistRecord :=
  ⟨i + 1, genOut client n0 q i, some (critFb client n0 q i)⟩

/-- The history accumulated after the first `k` loop indices all ran their
critic phase without converging. -/
def midHistory (client : Client) (n0 : Nat) (q : String) (k : Nat) : List HistRecord :=
  (List.range k).map (okRecord client n0 q)

/-- The generator agent with a given lifetime call counter. -/
def genAgentAt (g : Nat) : Agent :=
  { config := generatorConfig, call_count := g }

/-- The critic agent with a given lifetime call counter. -/
def criAgentAt (c : Nat) : Agent :=
  { config := criticConfig, call_count := c }

/-- Loop state on entry to loop index `i`, provided every earlier index ran
its critic phase without converging (so `i = 0`, or `1 ≤ i ≤ N - 1`). -/
def invLS (client : Client) (n0 : Nat) (q : String) (N g0 c0 : Nat) : Nat → LoopState
  | 0 => ⟨{ user_query := q, max_iterations := N }, genAgentAt g0, criAgentAt c0, n0⟩
  | i + 1 =>
      ⟨{ user_query := q, generator_output := genOut client n0 q i,
         critic_feedback := critFb client n0 q i, iteration := i + 1,
         max_iterations := N, history := midHistory client n0 q (i + 1), converged := false },
       genAgentAt (g0 + (i + 1)), criAgentAt (c0 + (i + 1)), n0 + 2 * (i + 1)⟩

/-- Loop state right after the `break` of line 351 fires on loop index `m`
(iteration `m + 1`): `converged` is set, but no record of iteration `m + 1`
was appended to the history. -/
def convLS (client : Client) (n0 : Nat) (q : String) (N g0 c0 m : Nat) : LoopState :=
  ⟨{ user_query := q, generator_output := genOut client n0 q m,
     critic_feedback := critFb client n0 q m, iteration := m + 1, max_iterations := N,
     history := midHistory client n0 q m, converged := true },
   genAgentAt (g0 + (m + 1)), criAgentAt (c0 + (m + 1)), n0 + 2 * (m + 1)⟩

/-- Loop state after the final loop index `N - 1` ran with no critic phase
(requires `1 ≤ N`): iteration `N`, last history record with feedback `none`. -/
def doneLS (client : Client) (n0 : Nat) (q : String) (N g0 c0 : Nat) : LoopState :=
  ⟨{ user_query := q, generator_output := genOut client n0 q (N - 1),
     critic_feedback := (invLS client n0 q N g0 c0 (N - 1)).st.critic_feedback,
     iteration := N, max_iterations := N,
     history := midHistory client n0 q (N - 1) ++ [⟨N, genOut client n0 q (N - 1), none⟩],
     converged := false },
   genAgentAt (g0 + N), criAgentAt (c0 + (N - 1)), n0 + 2 * (N - 1) + 1⟩

/-! ### Basic unfolding lemmas -/

@[simp] theorem midHistory_zero (client : Client) (n0 : Nat) (q : String) :
    midHistory client n0 q 0 = [] := rfl

theorem midHistory_succ (client : Client) (n0 : Nat) (q : String) (k : Nat) :
    midHistory client n0 q (k + 1) = midHistory client n0 q k ++ [okRecord client n0 q k] := by
  simp [midHistory, List.range_succ]

@[simp] theorem length_midHistory (client : Client) (n0 : Nat) (q : String) (k : Nat) :
    (midHistory client n0 q k).length = k := by
  simp [midHistory]

theorem genPrompt_succ (client : Client) (n0 : Nat) (q : String) (i : Nat) :
    genPrompt client n0 q (i + 1) =
      if critFb client n0 q i = "" then firstCallPrompt q
      else improvedPrompt q (genOut client n0 q i) (critFb client n0 q i) := rfl

theorem buildPrompt_gen_some (input q prev fb : String) :
    Agent.buildPrompt .GENERATOR input (some ⟨some q, some prev, some fb⟩) =
      .ok (if fb = "" then firstCallPrompt input else improvedPrompt q prev fb) := by
  by_cases h : fb = "" <;> simp [Agent.buildPrompt, h]

theorem gen_process_none (client : Client) (n g : Nat) (q : String) :
    (genAgentAt g).process client n q none =
      .ok (client n (genReq (firstCallPrompt q)), genAgentAt (g + 1), n + 1) := rfl

theorem gen_process_ctx (client : Client) (n g : Nat) (input q prev fb : String) :
    (genAgentAt g).process client n input (some ⟨some q, some prev, some fb⟩) =
      .ok (client n (genReq (if fb = "" then firstCallPrompt input else improvedPrompt q prev fb)),
           genAgentAt (g + 1), n + 1) := by
  by_cases h : fb = "" <;>
    simp [Agent.process, Agent.buildPrompt, h, genAgentAt, generatorConfig, genReq]

theorem cri_process (client : Client) (n c : Nat) (q out : String) :
    (criAgentAt c).process client n out (some { query := some q }) =
      .ok (client n (critReq q out), criAgentAt (c + 1), n + 1) := rfl

/-! ### Single-step lemmas -/

theorem runStep_start_last (client : Client) (n0 : Nat) (q : String) (g0 c0 : Nat) :
    runStep client 1 0 (invLS client n0 q 1 g0 c0 0) =
      .ok (doneLS client n0 q 1 g0 c0, false) := rfl

theorem runStep_start_mid (client : Client) (n0 : Nat) (q : String) (N g0 c0 : Nat)
    (h : 0 < N - 1) :
    runStep client N 0 (invLS client n0 q N g0 c0 0) =
      .ok (if matchesAt client n0 q 0 then (convLS client n0 q N g0 c0 0, true)
           else (invLS client n0 q N g0 c0 1, false)) := by
  simp only [runStep, invLS, convLS, gen_process_none, cri_process, if_pos h,
    matchesAt, critFb, genOut, genPrompt, midHistory_succ, midHistory_zero, okRecord,
    Nat.mul_zero, Nat.add_zero, Nat.zero_add, Nat.mul_one, if_true, reduceIte,
    List.nil_append]
  rw [show n0 + 1 + 1 = n0 + 2 from rfl]
  split <;> rfl

theorem genOut_fold (client : Client) (n0 : Nat) (q : String) (i : Nat) :
    client (n0 + 2 * i) (genReq (genPrompt client n0 q i)) = genOut client n0 q i := rfl

theorem critFb_fold (client : Client) (n0 : Nat) (q : String) (i : Nat) :
    client (n0 + 2 * i + 1) (critReq q (genOut client n0 q i)) = critFb client n0 q i := rfl

theorem matchesAt_fold (client : Client) (n0 : Nat) (q : String) (i : Nat) :
    isConvergedFeedback (critFb client n0 q i) = matchesAt client n0 q i := rfl

theorem runStep_succ_mid (client : Client) (n0 : Nat) (q : String) (N g0 c0 i : Nat)
    (h : i + 1 < N - 1) :
    runStep client N (i + 1) (invLS client n0 q N g0 c0 (i + 1)) =
      .ok (if matchesAt client n0 q (i + 1) then (convLS client n0 q N g0 c0 (i + 1), true)
           else (invLS client n0 q N g0 c0 (i + 1 + 1), false)) := by
  simp only [runStep, invLS, convLS, gen_process_ctx, ← genPrompt_succ, genOut_fold,
    cri_process, critFb_fold, matchesAt_fold, if_pos h, midHistory_succ, okRecord, reduceIte,
    Nat.add_eq_zero, Nat.succ_ne_zero, and_false, if_false]
  rw [show g0 + (i + 1) + 1 = g0 + (i + 1 + 1) from rfl,
      show c0 + (i + 1) + 1 = c0 + (i + 1 + 1) from rfl,
      show n0 + 2 * (i + 1) + 1 + 1 = n0 + 2 * (i + 1 + 1) from rfl]
  split <;> rfl

theorem runStep_succ_last (client : Client) (n0 : Nat) (q : String) (N g0 c0 i : Nat)
    (hN : i + 2 = N) :
    runStep client N (i + 1) (invLS client n0 q N g0 c0 (i + 1)) =
      .ok (doneLS client n0 q N g0 c0, false) := by
  subst hN
  simp only [runStep, invLS, doneLS, gen_process_ctx, ← genPrompt_succ, genOut_fold,
    midHistory_succ, okRecord, reduceIte, Nat.add_eq_zero, Nat.succ_ne_zero, and_false,
    if_false, show i + 2 - 1 = i + 1 from rfl, lt_self_iff_false]
  rfl

/-! ### Loop characterization -/

/-- If no convergence marker fires from loop index `i` onwards, the loop runs
to exhaustion and ends in `doneLS`. -/
theorem runLoop_inv_exhaust (client : Client) (n0 : Nat) (q : String) (N g0 c0 : Nat) :
    ∀ fuel i, fuel = N - i → i ≤ N - 1 → 1 ≤ N →
      (∀ j, i ≤ j → j < N - 1 → matchesAt client n0 q j = false) →
      runLoopAux client N i fuel (invLS client n0 q N g0 c0 i) =
        .ok (doneLS client n0 q N g0 c0) := by
  intro fuel
  induction fuel with
  | zero => intro i hf hi hN _; omega
  | succ fuel ih =>
      intro i hf hi hN hnm
      by_cases hlast : N - 1 ≤ i
      · have hfuel : fuel = 0 := by omega
        cases i with
        | zero =>
            have h1 : N = 1 := by omega
            subst h1
            simp [runLoopAux, runStep_start_last, hfuel]
        | succ i' =>
            have h2 : i' + 2 = N := by omega
            simp [runLoopAux, runStep_succ_last client n0 q N g0 c0 i' h2, hfuel]
      · push_neg at hlast
        have hmF : matchesAt client n0 q i = false := hnm i le_rfl hlast
        cases i with
        | zero =>
            simp only [runLoopAux]
            rw [runStep_start_mid client n0 q N g0 c0 hlast]
            simp only [hmF, Bool.false_eq_true, if_false]
            exact ih 1 (by omega) (by omega) hN (fun j h1 h2 => hnm j (by omega) h2)
        | succ i' =>
            simp only [runLoopAux]
            rw [runStep_succ_mid client n0 q N g0 c0 i' hlast]
            simp only [hmF, Bool.false_eq_true, if_false]
            exact ih (i' + 1 + 1) (by omega) (by omega) hN (fun j h1 h2 => hnm j (by omega) h2)

/-- If the first convergence marker from loop index `i` onwards fires at index
`m` (with `m < N - 1`, so the critic phase runs there), the loop breaks at
index `m` and ends in `convLS m`. -/
theorem runLoop_inv_converge (client : Client) (n0 : Nat) (q : String) (N g0 c0 : Nat) :
    ∀ fuel i m, fuel = N - i → i ≤ m → m < N - 1 →
      (∀ j, i ≤ j → j < m → matchesAt client n0 q j = false) →
      matchesAt client n0 q m = true →
      runLoopAux client N i fuel (invLS client n0 q N g0 c0 i) =
        .ok (convLS client n0 q N g0 c0 m) := by
  intro fuel
  induction fuel with
  | zero => intro i m hf him hm _ _; omega
  | succ fuel ih =>
      intro i m hf him hm hnm hmt
      by_cases heq : i = m
      · subst heq
        cases i with
        | zero =>
            simp only [runLoopAux]
            rw [runStep_start_mid client n0 q N g0 c0 (by omega)]
            simp [hmt]
        | succ i' =>
            simp only [runLoopAux]
            rw [runStep_succ_mid client n0 q N g0 c0 i' (by omega)]
            simp [hmt]
      · have hlt : i < m := by omega
        have hmF : matchesAt client n0 q i = false := hnm i le_rfl hlt
        cases i with
        | zero =>
            simp only [runLoopAux]
            rw [runStep_start_mid client n0 q N g0 c0 (by omega)]
            simp only [hmF, Bool.false_eq_true, if_false]
            exact ih 1 m (by omega) (by omega) hm (fun j h1 h2 => hnm j (by omega) h2) hmt
        | succ i' =>
            simp only [runLoopAux]
            rw [runStep_succ_mid client n0 q N g0 c0 i' (by omega)]
            simp only [hmF, Bool.false_eq_true, if_false]
            exact ih (i' + 1 + 1) m (by omega) (by omega) hm (fun j h1 h2 => hnm j (by omega) h2) hmt

/-- The result dict of a run that exhausts its `N ≥ 1` allotted iterations
without converging, starting from lifetime counters `g0`, `c0`. -/
def exhaustedResult (client : Client) (n0 : Nat) (q : String) (N g0 c0 : Nat) : RunResult :=
  { final_response := genOut client n0 q (N - 1), iterations := N, converged := false,
    history := midHistory client n0 q (N - 1) ++ [⟨N, genOut client n0 q (N - 1), none⟩],
    generator_calls := g0 + N, critic_calls := c0 + (N - 1) }

/-- The result dict of a run whose convergence marker first fires on loop
index `m` (iteration `m + 1`): no history record is stored for the converged
iteration itself. -/
def convergedResult (client : Client) (n0 : Nat) (q : String) (g0 c0 m : Nat) : RunResult :=
  { final_response := genOut client n0 q m, iterations := m + 1, converged := true,
    history := midHistory client n0 q m, generator_calls := g0 + (m + 1),
    critic_calls := c0 + (m + 1) }

theorem run_of_loop (client : Client) (n0 : Nat) (q : String) (N g0 c0 : Nat) (ls : LoopState)
    (h : runLoopAux client N 0 N (invLS client n0 q N g0 c0 0) = .ok ls) :
    DualAgentCoordinator.run ⟨genAgentAt g0, criAgentAt c0⟩ client n0 q N =
      .ok (⟨ls.st.generator_output, ls.st.iteration, ls.st.converged, ls.st.history,
            ls.generator.call_count, ls.critic.call_count⟩,
           ⟨ls.generator, ls.critic⟩, ls.ncalls) := by
  simp only [DualAgentCoordinator.run]
  rw [show (⟨{ user_query := q, max_iterations := N }, genAgentAt g0, criAgentAt c0, n0⟩ : LoopState)
        = invLS client n0 q N g0 c0 0 from rfl, h]

/-- A run with no marker firing before the last index exhausts its budget. -/
theorem run_exhausted (client : Client) (n0 : Nat) (q : String) (N g0 c0 : Nat)
    (hN : 1 ≤ N) (hnm : ∀ j, j < N - 1 → matchesAt client n0 q j = false) :
    DualAgentCoordinator.run ⟨genAgentAt g0, criAgentAt c0⟩ client n0 q N =
      .ok (exhaustedResult client n0 q N g0 c0,
           ⟨genAgentAt (g0 + N), criAgentAt (c0 + (N - 1))⟩, n0 + 2 * (N - 1) + 1) := by
  have key := runLoop_inv_exhaust client n0 q N g0 c0 N 0 (by omega) (by omega) hN
    (fun j _ hj => hnm j hj)
  rw [run_of_loop client n0 q N g0 c0 _ key]
  rfl

/-- A run whose marker first fires on loop index `m < N - 1` converges there. -/
theorem run_converged (client : Client) (n0 : Nat) (q : String) (N g0 c0 m : Nat)
    (hm : m < N - 1) (hmt : matchesAt client n0 q m = true)
    (hnm : ∀ j, j < m → matchesAt client n0 q j = false) :
    DualAgentCoordinator.run ⟨genAgentAt g0, criAgentAt c0⟩ client n0 q N =
      .ok (convergedResult client n0 q g0 c0 m,
           ⟨genAgentAt (g0 + (m + 1)), criAgentAt (c0 + (m + 1))⟩, n0 + 2 * (m + 1)) := by
  have key := runLoop_inv_converge client n0 q N g0 c0 N 0 m (by omega) (by omega) hm
    (fun j _ hj => hnm j hj) hmt
  rw [run_of_loop client n0 q N g0 c0 _ key]
  rfl

/-- A run with `max_iterations = 0` returns immediately. -/
theorem run_zero (client : Client) (n0 : Nat) (q : String) (g0 c0 : Nat) :
    DualAgentCoordinator.run ⟨genAgentAt g0, criAgentAt c0⟩ client n0 q 0 =
      .ok ({ final_response := "", iterations := 0, converged := false, history := [],
             generator_calls := g0, critic_calls := c0 },
           ⟨genAgentAt g0, criAgentAt c0⟩, n0) := rfl

/-- Every run with `N ≥ 1` either converges at the first marker index or
exhausts its budget: exact closed forms for both cases. -/
theorem run_cases (client : Client) (n0 : Nat) (q : String) (N g0 c0 : Nat) (hN : 1 ≤ N) :
    (∃ m, m < N - 1 ∧ matchesAt client n0 q m = true ∧
        (∀ j, j < m → matchesAt client n0 q j = false) ∧
        DualAgentCoordinator.run ⟨genAgentAt g0, criAgentAt c0⟩ client n0 q N =
          .ok (convergedResult client n0 q g0 c0 m,
               ⟨genAgentAt (g0 + (m + 1)), criAgentAt (c0 + (m + 1))⟩, n0 + 2 * (m + 1)))
    ∨ ((∀ j, j < N - 1 → matchesAt client n0 q j = false) ∧
        DualAgentCoordinator.run ⟨genAgentAt g0, criAgentAt c0⟩ client n0 q N =
          .ok (exhaustedResult client n0 q N g0 c0,
               ⟨genAgentAt (g0 + N), criAgentAt (c0 + (N - 1))⟩, n0 + 2 * (N - 1) + 1)) := by
  by_cases hex : ∃ m, m < N - 1 ∧ matchesAt client n0 q m = true
  · left
    have hmprop := Nat.find_spec hex
    have hbefore : ∀ j, j < Nat.find hex → matchesAt client n0 q j = false := by
      intro j hj
      have hjlt : j < N - 1 := hj.trans hmprop.1
      have hnot := Nat.find_min hex hj
      cases h : matchesAt client n0 q j with
      | false => rfl
      | true => exact absurd ⟨hjlt, h⟩ hnot
    exact ⟨Nat.find hex, hmprop.1, hmprop.2, hbefore,
      run_converged client n0 q N g0 c0 (Nat.find hex) hmprop.1 hmprop.2 hbefore⟩
  · right
    have hnm : ∀ j, j < N - 1 → matchesAt client n0 q j = false := by
      intro j hj
      cases h : matchesAt client n0 q j with
      | false => rfl
      | true => exact absurd ⟨j, hj, h⟩ hex
    exact ⟨hnm, run_exhausted client n0 q N g0 c0 hN hnm⟩

/-- The orchestrator never raises: every run returns a complete result. -/
theorem run_total (client : Client) (n0 : Nat) (q : String) (N g0 c0 : Nat) :
    ∃ r co2 n2, DualAgentCoordinator.run ⟨genAgentAt g0, criAgentAt c0⟩ client n0 q N
      = .ok (r, co2, n2) := by
  rcases Nat.eq_zero_or_pos N with h0 | h1
  · subst h0; exact ⟨_, _, _, run_zero client n0 q g0 c0⟩
  · rcases run_cases client n0 q N g0 c0 h1 with ⟨m, _, _, _, hrun⟩ | ⟨_, hrun⟩ <;>
      exact ⟨_, _, _, hrun⟩

/-! ### Substring and history facts -/

theorem leadsList_self_append (pat t : List Char) : leadsList pat (pat ++ t) = true := by
  induction pat with
  | nil => rfl
  | cons a as ih => simp [leadsList, ih]

theorem containsSubL_of_leads (pat l : List Char) (h : leadsList pat l = true) :
    containsSubL pat l = true := by
  cases l with
  | nil => simpa [containsSubL] using h
  | cons c ts => simp [containsSubL, h]

theorem containsSubL_self_append (pat t : List Char) : containsSubL pat (pat ++ t) = true :=
  containsSubL_of_leads _ _ (leadsList_self_append pat t)

theorem containsSubL_append_left (s : List Char) (pat l : List Char)
    (h : containsSubL pat l = true) : containsSubL pat (s ++ l) = true := by
  induction s with
  | nil => simpa using h
  | cons c cs ih => simp [containsSubL, ih]

/-- If the character data of `s` decomposes as `pre ++ mid.data ++ post`, then
`mid` is a substring of `s`. -/
theorem strContainsSub_of_data (s mid : String) (pre post : List Char)
    (h : s.data = pre ++ (mid.data ++ post)) : strContainsSub s mid = true := by
  unfold strContainsSub
  rw [h]
  exact containsSubL_append_left pre _ _ (containsSubL_self_append mid.data post)

theorem midHistory_iterations (client : Client) (n0 : Nat) (q : String) (k : Nat) :
    (midHistory client n0 q k).map (fun rec => rec.iteration)
      = (List.range k).map (fun j => j + 1) := by
  simp [midHistory, okRecord]

theorem midHistory_feedback_isSome (client : Client) (n0 : Nat) (q : String) (k : Nat) :
    ∀ rec ∈ midHistory client n0 q k, rec.critic_feedback.isSome = true := by
  intro rec hrec
  simp only [midHistory, List.mem_map] at hrec
  obtain ⟨j, _, rfl⟩ := hrec
  rfl

theorem midHistory_feedback_map (client : Client) (n0 : Nat) (q : String) (k : Nat) :
    (midHistory client n0 q k).map (fun rec => rec.critic_feedback.isSome)
      = List.replicate k true := by
  simp only [midHistory, List.map_map]
  have : ((fun rec => rec.critic_feedback.isSome) ∘ okRecord client n0 q)
      = fun _ => true := by
    funext j; rfl
  rw [this, List.map_const', List.length_range]

theorem mkCoordinator_eq : mkCoordinator = ⟨genAgentAt 0, criAgentAt 0⟩ := rfl

theorem genPrompt_eq_improved (client : Client) (n0 : Nat) (q : String) (i : Nat)
    (hfb : critFb client n0 q i ≠ "") :
    genPrompt client n0 q (i + 1)
      = improvedPrompt q (genOut client n0 q i) (critFb client n0 q i) := by
  rw [genPrompt_succ, if_neg hfb]

theorem genPrompt_embeds_prev (client : Client) (n0 : Nat) (q : String) (i : Nat)
    (hfb : critFb client n0 q i ≠ "") :
    strContainsSub (genPrompt client n0 q (i + 1)) (genOut client n0 q i) = true := by
  rw [genPrompt_eq_improved client n0 q i hfb]
  exact strContainsSub_of_data _ _
    ("Original Query: ".data ++ q.data ++ "\n\nPrevious Response:\n".data)
    ("\n\nFeedback from Critic:\n".data ++ (critFb client n0 q i).data
      ++ "\n\nPlease provide an improved response that addresses the feedback while maintaining quality.".data)
    (by simp [improvedPrompt, String.data_append, List.append_assoc])

theorem genPrompt_embeds_fb (client : Client) (n0 : Nat) (q : String) (i : Nat)
    (hfb : critFb client n0 q i ≠ "") :
    strContainsSub (genPrompt client n0 q (i + 1)) (critFb client n0 q i) = true := by
  rw [genPrompt_eq_improved client n0 q i hfb]
  exact strContainsSub_of_data _ _
    ("Original Query: ".data ++ q.data ++ "\n\nPrevious Response:\n".data
      ++ (genOut client n0 q i).data ++ "\n\nFeedback from Critic:\n".data)
    "\n\nPlease provide an improved response that addresses the feedback while maintaining quality.".data
    (by simp [improvedPrompt, String.data_append, List.append_assoc])

theorem genPrompt_embeds_query (client : Client) (n0 : Nat) (q : String) (i : Nat)
    (hfb : critFb client n0 q i ≠ "") :
    strContainsSub (genPrompt client n0 q (i + 1)) q = true := by
  rw [genPrompt_eq_improved client n0 q i hfb]
  exact strContainsSub_of_data _ _
    "Original Query: ".data
    ("\n\nPrevious Response:\n".data ++ (genOut client n0 q i).data
      ++ "\n\nFeedback from Critic:\n".data ++ (critFb client n0 q i).data
      ++ "\n\nPlease provide an improved response that addresses the feedback while maintaining quality.".data)
    (by simp [improvedPrompt, String.data_append, List.append_assoc])

/-! ### Claims -/

/-- C3: for every run with `max_iterations = N > 1` (fresh orchestrator)
against a backend whose critic feedback never contains the convergence marker,
`run` performs exactly N generator calls and N-1 critic calls, returns a
history of exactly N records whose first N-1 records have feedback present and
whose last has feedback absent, and returns `converged = false`. -/
theorem claim_C3 (client : Client) (n0 : Nat) (q : String) (N : Nat) (hN : 1 < N)
    (hnm : ∀ j, matchesAt client n0 q j = false) :
    ∃ r co2 n2, DualAgentCoordinator.run mkCoordinator client n0 q N = .ok (r, co2, n2) ∧
      r.generator_calls = N ∧ r.critic_calls = N - 1 ∧ r.converged = false ∧
      r.history.length = N ∧
      r.history.map (fun rec => rec.critic_feedback.isSome)
        = List.replicate (N - 1) true ++ [false] := by
  have h := run_exhausted client n0 q N 0 0 (by omega) (fun j _ => hnm j)
  refine ⟨exhaustedResult client n0 q N 0 0,
    ⟨genAgentAt (0 + N), criAgentAt (0 + (N - 1))⟩, n0 + 2 * (N - 1) + 1,
    ?_, ?_, ?_, rfl, ?_, ?_⟩
  · rw [mkCoordinator_eq]; exact h
  · simp [exhaustedResult]
  · simp [exhaustedResult]
  · simp [exhaustedResult]; omega
  · simp [exhaustedResult, midHistory_feedback_map]

/-- C4: for every run with `max_iterations = 1` on a fresh orchestrator, `run`
returns `iterations = 1`, `converged = false`, a single history record whose
feedback is absent, and a critic invocation counter of 0 (the critic never
runs). -/
theorem claim_C4 (client : Client) (n0 : Nat) (q : String) :
    ∃ co2 n2, DualAgentCoordinator.run mkCoordinator client n0 q 1 =
      .ok ({ final_response := genOut client n0 q 0, iterations := 1, converged := false,
             history := [⟨1, genOut client n0 q 0, none⟩],
             generator_calls := 1, critic_calls := 0 }, co2, n2) := by
  have h := run_exhausted client n0 q 1 0 0 (by omega) (fun j hj => absurd hj (by omega))
  refine ⟨⟨genAgentAt (0 + 1), criAgentAt (0 + (1 - 1))⟩, n0 + 2 * (1 - 1) + 1, ?_⟩
  rw [mkCoordinator_eq, h]
  rfl

/-- C7: `OllamaClient.generate` returns, on HTTP 200, the trimmed `response`
field of the payload (empty when the field is missing); on any non-200 status
a human-readable error string containing the status code; and on a transport
failure an error string built from the exception text — never a raised or
distinct error type. -/
theorem claim_C7 :
    (∀ body, OllamaClient.generate (.success 200 body) = pyStrip (body.getD "")) ∧
    (OllamaClient.generate (.success 200 none) = "") ∧
    (∀ status body, status ≠ 200 →
      OllamaClient.generate (.success status body) = "Error: HTTP " ++ toString status ∧
      strContainsSub (OllamaClient.generate (.success status body)) (toString status) = true) ∧
    (∀ msg, OllamaClient.generate (.failure msg) = "Error: " ++ msg) := by
  refine ⟨fun body => rfl, rfl, fun status body hs => ⟨?_, ?_⟩, fun msg => rfl⟩
  · simp [OllamaClient.generate, hs]
  · rw [show OllamaClient.generate (.success status body) = "Error: HTTP " ++ toString status by
      simp [OllamaClient.generate, hs]]
    exact strContainsSub_of_data _ _ "Error: HTTP ".data
      ([] : List Char)
      (by simp [String.data_append])

/-- Witness for C7 at concrete inputs. -/
theorem claim_C7_witness :
    OllamaClient.generate (.success 500 (some "ignored")) = "Error: HTTP 500" ∧
    OllamaClient.generate (.failure "connection refused") = "Error: connection refused" :=
  ⟨(claim_C7.2.2.1 500 (some "ignored") (by decide)).1, claim_C7.2.2.2 "connection refused"⟩

/-- C9: if the critic feedback carried forward from loop index `i` is the
empty string, the next generator call builds the plain first-call prompt from
the query alone, even though a full context dict is passed. -/
theorem claim_C9 (client : Client) (n0 : Nat) (q : String) (i : Nat)
    (hfb : critFb client n0 q i = "") :
    genPrompt client n0 q (i + 1) = firstCallPrompt q ∧
    ∀ (input q0 prev : String),
      Agent.buildPrompt .GENERATOR input (some ⟨some q0, some prev, some ""⟩)
        = .ok (firstCallPrompt input) := by
  constructor
  · rw [genPrompt_succ, if_pos hfb]
  · intro input q0 prev
    simp [Agent.buildPrompt]

/-- The backend of the spec's end-to-end example: the critic role always
answers `"no significant improvements needed on first call"`, the generator
role always answers `"ANSWER"` (roles distinguished by the system prompt the
request carries). -/
def convergeStub : Client := fun _ req =>
  if req.system = CRITIC_SYSTEM_PROMPT then "no significant improvements needed on first call"
  else "ANSWER"

set_option maxRecDepth 8000 in
/-- C1 counterexample: on the spec's own end-to-end example (query
`"What is X?"`, `max_iterations = 2`, marker fires on iteration 1) the run
converges with `iterations = 1` and both counters 1, but the history is
*empty* — the `break` of line 351 precedes the `history.append` of line 354,
so the claimed single record `{1, "ANSWER", feedback}` is never stored. -/
theorem claim_C1_counterexample :
    ∃ r co2 n2, DualAgentCoordinator.run mkCoordinator convergeStub 0 "What is X?" 2
        = .ok (r, co2, n2) ∧
      r.converged = true ∧ r.iterations = 1 ∧ r.generator_calls = 1 ∧ r.critic_calls = 1 ∧
      r.history = [] :=
  ⟨_, _, _, rfl, rfl, rfl, rfl, rfl, rfl⟩

/-- C1 (amended): if the critic's feedback first matches the marker on
iteration `k` (`1 ≤ k < N`), the run returns `iterations = k`,
`converged = true`, generator calls `= k`, critic calls `= k`, and a history
of exactly `k - 1` records, all with feedback present — the record of the
converged iteration `k` itself is never appended. -/
theorem claim_C1 (client : Client) (n0 : Nat) (q : String) (N k : Nat)
    (hk : 1 ≤ k) (hkN : k < N)
    (hmt : matchesAt client n0 q (k - 1) = true)
    (hbefore : ∀ j, j < k - 1 → matchesAt client n0 q j = false) :
    ∃ r co2 n2, DualAgentCoordinator.run mkCoordinator client n0 q N = .ok (r, co2, n2) ∧
      r.iterations = k ∧ r.converged = true ∧
      r.history.length = k - 1 ∧
      (∀ rec ∈ r.history, rec.critic_feedback.isSome = true) ∧
      r.generator_calls = k ∧ r.critic_calls = k := by
  have hm : k - 1 < N - 1 := by omega
  have h := run_converged client n0 q N 0 0 (k - 1) hm hmt hbefore
  refine ⟨convergedResult client n0 q 0 0 (k - 1),
    ⟨genAgentAt (0 + (k - 1 + 1)), criAgentAt (0 + (k - 1 + 1))⟩, n0 + 2 * (k - 1 + 1),
    ?_, ?_, rfl, ?_, ?_, ?_, ?_⟩
  · rw [mkCoordinator_eq]; exact h
  · simp only [convergedResult]; omega
  · simp [convergedResult]
  · exact midHistory_feedback_isSome client n0 q (k - 1)
  · simp only [convergedResult]; omega
  · simp only [convergedResult]; omega

set_option maxRecDepth 8000 in
/-- Witness for C1 (amended) on the spec's example backend. -/
theorem claim_C1_witness :
    ∃ r co2 n2, DualAgentCoordinator.run mkCoordinator convergeStub 0 "What is X?" 2
        = .ok (r, co2, n2) ∧
      r.iterations = 1 ∧ r.converged = true ∧
      r.history.length = 1 - 1 ∧
      (∀ rec ∈ r.history, rec.critic_feedback.isSome = true) ∧
      r.generator_calls = 1 ∧ r.critic_calls = 1 :=
  claim_C1 convergeStub 0 "What is X?" 2 1 (by omega) (by omega) rfl
    (fun j hj => absurd hj (by omega))

set_option maxRecDepth 8000 in
/-- C2 counterexample: a run that converges on iteration 1 ends with
`iterations = 1` but an empty history: the history length does not equal the
number of completed iterations, and no record at all — in particular none with
absent feedback — exists for the final iteration. -/
theorem claim_C2_counterexample :
    ∃ r co2 n2, DualAgentCoordinator.run mkCoordinator convergeStub 0 "probe" 3
        = .ok (r, co2, n2) ∧
      r.iterations = 1 ∧ r.converged = true ∧ r.history.length ≠ r.iterations ∧
      ¬ ∃ rec ∈ r.history, rec.critic_feedback = none := by
  refine ⟨_, _, _, rfl, rfl, rfl, by decide, by simp⟩

/-- C2 (amended): at the end of every run (`N ≥ 1`), history records carry the
iteration numbers `1, 2, ...` in order; if the run did not converge, the
history length equals `iterations` and feedback is absent exactly in the final
iteration's record; if it converged on iteration `k`, the history holds only
the `k - 1` earlier records, all with feedback present — the final (converged)
iteration has no record at all. -/
theorem claim_C2 (client : Client) (n0 : Nat) (q : String) (N : Nat) (hN : 1 ≤ N) :
    ∃ r co2 n2, DualAgentCoordinator.run mkCoordinator client n0 q N = .ok (r, co2, n2) ∧
      1 ≤ r.iterations ∧
      r.history.map (fun rec => rec.iteration)
        = (List.range r.history.length).map (fun j => j + 1) ∧
      (r.converged = false → r.history.length = r.iterations ∧
        ∀ rec ∈ r.history, (rec.critic_feedback = none ↔ rec.iteration = r.iterations)) ∧
      (r.converged = true → r.history.length + 1 = r.iterations ∧
        ∀ rec ∈ r.history, rec.critic_feedback ≠ none) := by
  rw [mkCoordinator_eq]
  rcases run_cases client n0 q N 0 0 hN with ⟨m, hm, hmt, hbefore, hrun⟩ | ⟨hnm, hrun⟩
  · refine ⟨_, _, _, hrun, ?_, ?_, ?_, ?_⟩
    · simp [convergedResult]
    · simp only [convergedResult, length_midHistory]
      exact midHistory_iterations client n0 q m
    · intro hcf; simp [convergedResult] at hcf
    · intro _
      refine ⟨by simp [convergedResult], ?_⟩
      intro rec hrec
      have hs := midHistory_feedback_isSome client n0 q m rec
        (by simpa [convergedResult] using hrec)
      simpa [Option.isSome_iff_ne_none] using hs
  · have h1 : N - 1 + 1 = N := by omega
    refine ⟨_, _, _, hrun, ?_, ?_, ?_, ?_⟩
    · simp only [exhaustedResult]; omega
    · simp only [exhaustedResult, List.map_append, List.length_append, length_midHistory,
        midHistory_iterations, List.map_cons, List.map_nil, List.length_cons, List.length_nil]
      rw [show N - 1 + (0 + 1) = N - 1 + 1 from by omega, List.range_succ, List.map_append]
      simp [h1]
    · intro _
      refine ⟨by simp only [exhaustedResult, List.length_append, length_midHistory,
          List.length_cons, List.length_nil]; omega, ?_⟩
      intro rec hrec
      simp only [exhaustedResult, List.mem_append] at hrec
      rcases hrec with hmem | hlast
      · simp only [midHistory, List.mem_map, List.mem_range] at hmem
        obtain ⟨j, hj, rfl⟩ := hmem
        simp only [okRecord, exhaustedResult]
        simp
        omega
      · simp only [List.mem_singleton] at hlast
        subst hlast
        simp [exhaustedResult]
    · intro hct; simp [exhaustedResult] at hct

/-- Witness for C2 (amended) on a never-converging backend with
`max_iterations = 2`. -/
theorem claim_C2_witness :
    ∃ r co2 n2,
      DualAgentCoordinator.run mkCoordinator (fun _ _ => "plain feedback") 0 "q" 2
        = .ok (r, co2, n2) ∧
      1 ≤ r.iterations ∧
      r.history.map (fun rec => rec.iteration)
        = (List.range r.history.length).map (fun j => j + 1) ∧
      (r.converged = false → r.history.length = r.iterations ∧
        ∀ rec ∈ r.history, (rec.critic_feedback = none ↔ rec.iteration = r.iterations)) ∧
      (r.converged = true → r.history.length + 1 = r.iterations ∧
        ∀ rec ∈ r.history, rec.critic_feedback ≠ none) :=
  claim_C2 (fun _ _ => "plain feedback") 0 "q" 2 (by omega)

/-- A backend whose critic role answers the empty string (as a `200` response
with a missing or whitespace-only `response` field would produce) and whose
generator role echoes its received prompt behind a recognizable tag. -/
def emptyFeedbackStub : Client := fun _ req =>
  if req.system = CRITIC_SYSTEM_PROMPT then "" else "UNIQUEANS\n" ++ req.prompt

/-- A backend that always answers a fixed non-empty feedback text. -/
def constFeedbackStub : Client := fun _ _ => "FEEDBACK TEXT"

set_option maxRecDepth 8000 in
/-- C5 counterexample: when the feedback carried from iteration 1 is the empty
string, the generator prompt of iteration 2 is the plain first-call prompt: it
does not embed the previous answer at all (the echoing stub shows the actual
run sends exactly that plain prompt on its final generator call). -/
theorem claim_C5_counterexample :
    critFb emptyFeedbackStub 0 "q" 0 = "" ∧
    genPrompt emptyFeedbackStub 0 "q" 1 = firstCallPrompt "q" ∧
    strContainsSub (genPrompt emptyFeedbackStub 0 "q" 1) (genOut emptyFeedbackStub 0 "q" 0)
      = false ∧
    (∃ r co2 n2,
      DualAgentCoordinator.run mkCoordinator emptyFeedbackStub 0 "q" 2 = .ok (r, co2, n2) ∧
      r.final_response = "UNIQUEANS\n" ++ firstCallPrompt "q") :=
  ⟨rfl, rfl, rfl, _, _, _, rfl, rfl⟩

/-- C5 (amended): on iteration `i + 2` the generator context carries exactly
the previous pair — the prompt is built only from the query, the iteration
`i + 1` answer and the iteration `i + 1` feedback — and, provided that carried
feedback is non-empty, the prompt embeds the previous answer, the feedback and
the query verbatim.  (When the carried feedback is empty the plain first-call
prompt is used instead — see C9.) -/
theorem claim_C5 (client : Client) (n0 : Nat) (q : String) (i : Nat)
    (hfb : critFb client n0 q i ≠ "") :
    genPrompt client n0 q (i + 1)
        = improvedPrompt q (genOut client n0 q i) (critFb client n0 q i) ∧
      strContainsSub (genPrompt client n0 q (i + 1)) (genOut client n0 q i) = true ∧
      strContainsSub (genPrompt client n0 q (i + 1)) (critFb client n0 q i) = true ∧
      strContainsSub (genPrompt client n0 q (i + 1)) q = true :=
  ⟨genPrompt_eq_improved client n0 q i hfb, genPrompt_embeds_prev client n0 q i hfb,
   genPrompt_embeds_fb client n0 q i hfb, genPrompt_embeds_query client n0 q i hfb⟩

set_option maxRecDepth 8000 in
/-- Witness for C5 (amended) on a backend with constant non-empty feedback. -/
theorem claim_C5_witness :
    genPrompt constFeedbackStub 0 "q" (0 + 1)
        = improvedPrompt "q" (genOut constFeedbackStub 0 "q" 0) (critFb constFeedbackStub 0 "q" 0) ∧
      strContainsSub (genPrompt constFeedbackStub 0 "q" (0 + 1)) (genOut constFeedbackStub 0 "q" 0) = true ∧
      strContainsSub (genPrompt constFeedbackStub 0 "q" (0 + 1)) (critFb constFeedbackStub 0 "q" 0) = true ∧
      strContainsSub (genPrompt constFeedbackStub 0 "q" (0 + 1)) "q" = true :=
  claim_C5 constFeedbackStub 0 "q" 0 (by decide)

/-- C6: for every backend behaviour (including one producing error strings),
the orchestrator raises nothing and returns a complete result: the final
response is exactly the text of the last generator call — whatever string the
client returned — and any non-empty critic string (an error string included)
is embedded verbatim in the following generator prompt. -/
theorem claim_C6 (client : Client) (n0 : Nat) (q : String) (N g0 c0 : Nat) :
    ∃ r co2 n2,
      DualAgentCoordinator.run ⟨genAgentAt g0, criAgentAt c0⟩ client n0 q N
        = .ok (r, co2, n2) ∧
      (1 ≤ N → r.final_response = genOut client n0 q (r.iterations - 1)) ∧
      (∀ i, critFb client n0 q i ≠ "" →
        strContainsSub (genPrompt client n0 q (i + 1)) (critFb client n0 q i) = true) := by
  rcases Nat.eq_zero_or_pos N with h0 | h1
  · subst h0
    exact ⟨_, _, _, run_zero client n0 q g0 c0, fun hc => absurd hc (by omega),
      fun i hfb => genPrompt_embeds_fb client n0 q i hfb⟩
  · rcases run_cases client n0 q N g0 c0 h1 with ⟨m, hm, hmt, hb, hrun⟩ | ⟨hnm, hrun⟩
    · exact ⟨_, _, _, hrun, fun _ => by simp [convergedResult],
        fun i hfb => genPrompt_embeds_fb client n0 q i hfb⟩
    · exact ⟨_, _, _, hrun, fun _ => by simp [exhaustedResult],
        fun i hfb => genPrompt_embeds_fb client n0 q i hfb⟩

/-- Witness for C6 on an error-string backend (every call fails with a
rendered HTTP error). -/
theorem claim_C6_witness :
    ∃ r co2 n2,
      DualAgentCoordinator.run ⟨genAgentAt 0, criAgentAt 0⟩ (fun _ _ => "Error: HTTP 500")
          0 "q" 2 = .ok (r, co2, n2) ∧
      (1 ≤ 2 → r.final_response = genOut (fun _ _ => "Error: HTTP 500") 0 "q" (r.iterations - 1)) ∧
      (∀ i, critFb (fun _ _ => "Error: HTTP 500") 0 "q" i ≠ "" →
        strContainsSub (genPrompt (fun _ _ => "Error: HTTP 500") 0 "q" (i + 1))
          (critFb (fun _ _ => "Error: HTTP 500") 0 "q" i) = true) :=
  claim_C6 (fun _ _ => "Error: HTTP 500") 0 "q" 2 0 0

/-- C10: calling `process` on a critic-role agent with no context raises a
`TypeError`, and with a context dict lacking the `query` key raises a
`KeyError` — `process` never returns text in those cases even though its
signature declares the context optional; the orchestrator itself always passes
a context containing the query to the critic, so every run still completes. -/
theorem claim_C10 (client : Client) (a : Agent) (nc : Nat) (input : String)
    (hrole : a.config.role = .CRITIC) :
    a.process client nc input none
        = .error "TypeError: NoneType object is not subscriptable" ∧
    (∀ prev fb, a.process client nc input (some ⟨none, prev, fb⟩)
        = .error "KeyError: query") ∧
    (∀ (client2 : Client) (n0 : Nat) (q : String) (N : Nat),
      ∃ r co2 n2, DualAgentCoordinator.run mkCoordinator client2 n0 q N
        = .ok (r, co2, n2)) := by
  refine ⟨?_, fun prev fb => ?_, fun client2 n0 q N => ?_⟩
  · simp [Agent.process, hrole, Agent.buildPrompt]
  · simp [Agent.process, hrole, Agent.buildPrompt]
  · rw [mkCoordinator_eq]
    exact run_total client2 n0 q N 0 0

/-- Witness for C10 on the coordinator's own critic agent. -/
theorem claim_C10_witness :
    (criAgentAt 0).process (fun _ _ => "text") 7 "candidate answer" none
        = .error "TypeError: NoneType object is not subscriptable" ∧
    (∀ prev fb, (criAgentAt 0).process (fun _ _ => "text") 7 "candidate answer"
        (some ⟨none, prev, fb⟩) = .error "KeyError: query") ∧
    (∀ (client2 : Client) (n0 : Nat) (q : String) (N : Nat),
      ∃ r co2 n2, DualAgentCoordinator.run mkCoordinator client2 n0 q N
        = .ok (r, co2, n2)) :=
  claim_C10 (fun _ _ => "text") (criAgentAt 0) 7 "candidate answer" rfl

/-- Starting a run with lifetime counters `(g0, c0)` instead of `(0, 0)` only
shifts the returned counters: nothing else in the result changes, and the
coordinator returned by a fresh run carries exactly the returned counters. -/
theorem run_shift (client : Client) (n0 : Nat) (q : String) (N g0 c0 : Nat)
    (r0 : RunResult) (co0 : DualAgentCoordinator) (n2 : Nat)
    (h : DualAgentCoordinator.run ⟨genAgentAt 0, criAgentAt 0⟩ client n0 q N
          = .ok (r0, co0, n2)) :
    DualAgentCoordinator.run ⟨genAgentAt g0, criAgentAt c0⟩ client n0 q N =
      .ok ({ r0 with generator_calls := g0 + r0.generator_calls,
                     critic_calls := c0 + r0.critic_calls },
           ⟨genAgentAt (g0 + r0.generator_calls), criAgentAt (c0 + r0.critic_calls)⟩, n2) ∧
    co0 = ⟨genAgentAt r0.generator_calls, criAgentAt r0.critic_calls⟩ := by
  rcases Nat.eq_zero_or_pos N with hz | h1
  · subst hz
    rw [run_zero] at h
    simp only [Except.ok.injEq, Prod.mk.injEq] at h
    obtain ⟨hr, hco, hn⟩ := h
    subst hr; subst hco; subst hn
    rw [run_zero]
    constructor <;> simp
  · rcases run_cases client n0 q N 0 0 h1 with ⟨m, hm, hmt, hb, hrun⟩ | ⟨hnm, hrun⟩
    · rw [hrun] at h
      simp only [Except.ok.injEq, Prod.mk.injEq] at h
      obtain ⟨hr, hco, hn⟩ := h
      subst hr; subst hco; subst hn
      rw [run_converged client n0 q N g0 c0 m hm hmt hb]
      constructor
      · simp [convergedResult]
      · simp [convergedResult]
    · rw [hrun] at h
      simp only [Except.ok.injEq, Prod.mk.injEq] at h
      obtain ⟨hr, hco, hn⟩ := h
      subst hr; subst hco; subst hn
      rw [run_exhausted client n0 q N g0 c0 h1 hnm]
      constructor
      · simp [exhaustedResult]
      · simp [exhaustedResult]

/-- C8: the counters returned by `run` are the agents' lifetime counters —
the coordinator returned by a first run carries exactly the first run's
returned counts, and a second run on that same coordinator returns counts
equal to the first run's counts plus the counts a fresh orchestrator would
report for the same second run. -/
theorem claim_C8 (client : Client) (n0 : Nat) (q1 q2 : String) (N1 N2 : Nat)
    (r1 r2 r2f : RunResult) (co1 co2 co2f : DualAgentCoordinator) (n1 n2 n2f : Nat)
    (h1 : DualAgentCoordinator.run mkCoordinator client n0 q1 N1 = .ok (r1, co1, n1))
    (h2 : DualAgentCoordinator.run co1 client n1 q2 N2 = .ok (r2, co2, n2))
    (h2f : DualAgentCoordinator.run mkCoordinator client n1 q2 N2 = .ok (r2f, co2f, n2f)) :
    co1.generator.call_count = r1.generator_calls ∧
    co1.critic.call_count = r1.critic_calls ∧
    r2.generator_calls = r1.generator_calls + r2f.generator_calls ∧
    r2.critic_calls = r1.critic_calls + r2f.critic_calls := by
  rw [mkCoordinator_eq] at h1 h2f
  have hco1 := (run_shift client n0 q1 N1 0 0 r1 co1 n1 h1).2
  subst hco1
  have hs := (run_shift client n1 q2 N2 r1.generator_calls r1.critic_calls r2f co2f n2f h2f).1
  rw [hs] at h2
  simp only [Except.ok.injEq, Prod.mk.injEq] at h2
  obtain ⟨hr2, hco2, hn2⟩ := h2
  subst hr2
  exact ⟨rfl, rfl, rfl, rfl⟩

def c8client : Client := fun _ _ => "resp"

def c8r1 : RunResult := ⟨"resp", 2, false, [⟨1, "resp", some "resp"⟩, ⟨2, "resp", none⟩], 2, 1⟩

def c8co1 : DualAgentCoordinator := ⟨genAgentAt 2, criAgentAt 1⟩

def c8r2 : RunResult := ⟨"resp", 1, false, [⟨1, "resp", none⟩], 3, 1⟩

def c8r2f : RunResult := ⟨"resp", 1, false, [⟨1, "resp", none⟩], 1, 0⟩

set_option maxRecDepth 8000 in
/-- Witness for C8: two consecutive concrete runs on one orchestrator. -/
theorem claim_C8_witness :
    c8co1.generator.call_count = c8r1.generator_calls ∧
    c8co1.critic.call_count = c8r1.critic_calls ∧
    c8r2.generator_calls = c8r1.generator_calls + c8r2f.generator_calls ∧
    c8r2.critic_calls = c8r1.critic_calls + c8r2f.critic_calls :=
  claim_C8 c8client 0 "a" "b" 2 1 c8r1 c8r2 c8r2f c8co1 ⟨genAgentAt 3, criAgentAt 1⟩
    ⟨genAgentAt 1, criAgentAt 0⟩ 3 4 4 rfl rfl rfl

set_option maxRecDepth 8000 in
/-- Witness for C3 on a never-converging backend with `max_iterations = 3`. -/
theorem claim_C3_witness :
    ∃ r co2 n2, DualAgentCoordinator.run mkCoordinator (fun _ _ => "ok feedback") 0 "q" 3
        = .ok (r, co2, n2) ∧
      r.generator_calls = 3 ∧ r.critic_calls = 3 - 1 ∧ r.converged = false ∧
      r.history.length = 3 ∧
      r.history.map (fun rec => rec.critic_feedback.isSome)
        = List.replicate (3 - 1) true ++ [false] :=
  claim_C3 (fun _ _ => "ok feedback") 0 "q" 3 (by omega) (fun _ => rfl)

/-- Witness for C9 on a backend returning empty feedback. -/
theorem claim_C9_witness :
    genPrompt (fun _ _ => "") 0 "q" (0 + 1) = firstCallPrompt "q" ∧
    ∀ (input q0 prev : String),
      Agent.buildPrompt .GENERATOR input (some ⟨some q0, some prev, some ""⟩)
        = .ok (firstCallPrompt input) :=
  claim_C9 (fun _ _ => "") 0 "q" 0 rfl

end GraniteDuo
